import Mathlib

/-!
# fio_kv_helper: a shallow embedding of the key/value glue library

The library in `helper/src/main/fio_kv_helper.cpp` forwards to the operating
system (`open`, `close`, `posix_memalign`) and to the vendor key/value SDK
(`kv_create`, `kv_get`, `kv_put`, `kv_exists`, `kv_delete`).  Neither is part of
the repository, so both are parameters of the model (`Env`).  What the model
keeps explicit is

* the process's table of open descriptors (`World.fds`),
* the state of the device and SDK (`World.sdk`, of an arbitrary type),
* the sequence of SDK calls made so far (`World.calls`, ghost state),
* `assert`: a failed assertion aborts the call and is reported as
  `Outcome.aborted` together with the world reached at that point.

Pointers that the source compares with `NULL` are `Option`s.  C `int` and
`int64_t` values are `Int` (the library does no arithmetic on them); the one
computation, in `fio_kv_alloc`, is done in explicit 32-bit unsigned arithmetic.
The heap is not modelled: `calloc` yields a zeroed structure and `free` has no
visible effect.
-/

namespace FioKv

/-! ## Constants of `fio_kv_helper.h` -/

def FIO_KV_API_VERSION : Nat := 1

def FIO_KV_MAX_POOLS : Nat := 1024

def FIO_SECTOR_ALIGNMENT : Nat := 512

/-! ## Data model -/

/-- The structure `fio_kv_store_t`: descriptor, SDK store id, pool. -/
structure fio_kv_store_t where
  fd : Int
  kv : Int
  pool : Int
  deriving DecidableEq, Repr

/-- The structure `fio_kv_key_t`: a length and a pointer to the key bytes. -/
structure fio_kv_key_t where
  length : Int
  bytes : Option (List Nat)
  deriving DecidableEq, Repr

/-- Modelled from the spec: the record metadata (length, expiry) that the SDK
type `kv_key_info_t` carries; its declaration is in the vendor header, which is
not in the repository.  Only the two fields the source reads are kept. -/
structure kv_key_info_t where
  value_len : Nat
  expiry : Nat
  deriving DecidableEq, Repr

/-- The structure `fio_kv_value_t`: a pointer to the data and one to the info. -/
structure fio_kv_value_t where
  data : Option (List Nat)
  info : Option kv_key_info_t
  deriving DecidableEq, Repr

/-- The assertions of the source, one constructor per asserted expression. -/
inductive Assertion where
  | device_not_null
  | pool_id_nonneg
  | store_not_null
  | key_not_null
  | key_length_in_range
  | key_bytes_not_null
  | value_not_null
  | value_data_not_null
  | value_info_not_null
  deriving DecidableEq, Repr

/-- How a call ends: it returns a value, or an assertion fails and aborts it. -/
inductive Outcome (α : Type) where
  | returned : α → Outcome α
  | aborted : Assertion → Outcome α
  deriving DecidableEq, Repr

/-- A call into the vendor SDK, with the arguments it was given. -/
inductive SdkCall where
  | kv_create (fd : Int) (version max_pools : Nat) (expiry_enabled : Bool)
  | kv_get (kv pool : Int) (key : List Nat) (key_len : Int) (buf : List Nat)
      (buf_len : Nat) (info : kv_key_info_t)
  | kv_put (kv pool : Int) (key : List Nat) (key_len : Int) (data : List Nat)
      (value_len expiry : Nat) (replace : Bool) (gen : Nat)
  | kv_exists (kv pool : Int) (key : List Nat) (key_len : Int)
  | kv_delete (kv pool : Int) (key : List Nat) (key_len : Int)
  deriving DecidableEq, Repr

/-- What `kv_get` hands back: its status, the buffer and the info it wrote
through the two pointers, and the new SDK state. -/
structure KvGetResult (σ : Type) where
  ret : Int
  data : List Nat
  info : kv_key_info_t
  sdk : σ

/-- The environment of the library: `open(2)` on the device and the five SDK
entry points, as functions of the device/SDK state `σ`. -/
structure Env (σ : Type) where
  sys_open : σ → String → Int
  kv_create : σ → Int → Nat → Nat → Bool → Int × σ
  kv_get : σ → Int → Int → List Nat → Int → List Nat → Nat → kv_key_info_t → KvGetResult σ
  kv_put : σ → Int → Int → List Nat → Int → List Nat → Nat → Nat → Bool → Nat → Int × σ
  kv_exists : σ → Int → Int → List Nat → Int → Int × σ
  kv_delete : σ → Int → Int → List Nat → Int → Int × σ

/-- The state around the library. -/
structure World (σ : Type) where
  fds : Finset Int
  sdk : σ
  calls : List SdkCall

/-- The call `open(device, O_RDWR)`: a non-negative result is a descriptor that
is open from now on. -/
def World.sys_open {σ : Type} (env : Env σ) (w : World σ) (device : String) : Int × World σ :=
  let fd := env.sys_open w.sdk device
  if fd ≥ 0 then (fd, { w with fds := insert fd w.fds }) else (fd, w)

/-- The call `close(fd)`: the descriptor is no longer open (nothing changes when
it was not open). -/
def World.sys_close {σ : Type} (w : World σ) (fd : Int) : World σ :=
  { w with fds := w.fds.erase fd }

/-! ## The library -/

/-- The function `fio_kv_open`. -/
def fio_kv_open {σ : Type} (env : Env σ) (w : World σ) (device : Option String)
    (pool_id : Int) : Outcome (Option fio_kv_store_t) × World σ :=
  match device with
  | none => (.aborted .device_not_null, w)
  | some dev =>
    if ¬ (pool_id ≥ 0) then (.aborted .pool_id_nonneg, w) else
    let store : fio_kv_store_t := { fd := 0, kv := 0, pool := 0 }
    let o := w.sys_open env dev
    let store : fio_kv_store_t := { store with fd := o.1 }
    if store.fd < 0 then (.returned none, o.2) else
    let c := env.kv_create o.2.sdk store.fd FIO_KV_API_VERSION FIO_KV_MAX_POOLS false
    let w2 : World σ :=
      { o.2 with
        sdk := c.2
        calls := o.2.calls ++ [.kv_create store.fd FIO_KV_API_VERSION FIO_KV_MAX_POOLS false] }
    let store : fio_kv_store_t := { store with kv := c.1 }
    if store.kv ≤ 0 then (.returned none, w2) else
    let store : fio_kv_store_t := { store with pool := pool_id }
    (.returned (some store), w2)

/-- The function `fio_kv_close`; the structure it returns is the one the
pointer `store` designates after the call. -/
def fio_kv_close {σ : Type} (w : World σ) (store : Option fio_kv_store_t) :
    Outcome fio_kv_store_t × World σ :=
  match store with
  | none => (.aborted .store_not_null, w)
  | some st =>
    let w1 := w.sys_close st.fd
    let st : fio_kv_store_t := { st with fd := 0 }
    let st : fio_kv_store_t := { st with kv := 0 }
    (.returned st, w1)

/-- Addition of two `uint32_t` values. -/
def u32_add (a b : Nat) : Nat := (a + b) % 2 ^ 32

/-- Subtraction of two `uint32_t` values. -/
def u32_sub (a b : Nat) : Nat := (a % 2 ^ 32 + 2 ^ 32 - b % 2 ^ 32) % 2 ^ 32

/-- The size argument `length + FIO_SECTOR_ALIGNMENT - (length % FIO_SECTOR_ALIGNMENT)`
of `fio_kv_alloc`, an expression of type `uint32_t`. -/
def fio_kv_alloc_size (length : Nat) : Nat :=
  u32_sub (u32_add length FIO_SECTOR_ALIGNMENT) (length % FIO_SECTOR_ALIGNMENT)

/-- The function `fio_kv_alloc`, as the request it makes to `posix_memalign`:
the alignment and the number of bytes. -/
def fio_kv_alloc (length : Nat) : Nat × Nat :=
  (FIO_SECTOR_ALIGNMENT, fio_kv_alloc_size length)

/-- The function `fio_kv_get`; next to the status it returns the value structure
as `kv_get` left it. -/
def fio_kv_get {σ : Type} (env : Env σ) (w : World σ) (store : Option fio_kv_store_t)
    (key : Option fio_kv_key_t) (value : Option fio_kv_value_t) :
    Outcome (Int × fio_kv_value_t) × World σ :=
  match store with
  | none => (.aborted .store_not_null, w)
  | some st =>
  match key with
  | none => (.aborted .key_not_null, w)
  | some k =>
  if ¬ (k.length ≥ 1 ∧ k.length ≤ 128) then (.aborted .key_length_in_range, w) else
  match k.bytes with
  | none => (.aborted .key_bytes_not_null, w)
  | some bytes =>
  match value with
  | none => (.aborted .value_not_null, w)
  | some v =>
  match v.data with
  | none => (.aborted .value_data_not_null, w)
  | some data =>
  match v.info with
  | none => (.aborted .value_info_not_null, w)
  | some info =>
    let r := env.kv_get w.sdk st.kv st.pool bytes k.length data info.value_len info
    let w1 : World σ :=
      { w with
        sdk := r.sdk
        calls := w.calls ++ [.kv_get st.kv st.pool bytes k.length data info.value_len info] }
    let v1 : fio_kv_value_t := { data := some r.data, info := some r.info }
    let ret := r.ret
    if ret < 0 then (.returned (ret, v1), w1) else
    (.returned (ret, v1), w1)

/-- The function `fio_kv_put`. -/
def fio_kv_put {σ : Type} (env : Env σ) (w : World σ) (store : Option fio_kv_store_t)
    (key : Option fio_kv_key_t) (value : Option fio_kv_value_t) :
    Outcome Int × World σ :=
  match store with
  | none => (.aborted .store_not_null, w)
  | some st =>
  match key with
  | none => (.aborted .key_not_null, w)
  | some k =>
  if ¬ (k.length ≥ 1 ∧ k.length ≤ 128) then (.aborted .key_length_in_range, w) else
  match k.bytes with
  | none => (.aborted .key_bytes_not_null, w)
  | some bytes =>
  match value with
  | none => (.aborted .value_not_null, w)
  | some v =>
  match v.data with
  | none => (.aborted .value_data_not_null, w)
  | some data =>
  match v.info with
  | none => (.aborted .value_info_not_null, w)
  | some info =>
    let r := env.kv_put w.sdk st.kv st.pool bytes k.length data info.value_len
      info.expiry true 0
    (.returned r.1,
      { w with
        sdk := r.2
        calls := w.calls ++
          [.kv_put st.kv st.pool bytes k.length data info.value_len info.expiry true 0] })

/-- The function `fio_kv_exists`; the `int` that `kv_exists` returns is converted
to `bool` by the `return`, that is compared with zero. -/
def fio_kv_exists {σ : Type} (env : Env σ) (w : World σ) (store : Option fio_kv_store_t)
    (key : Option fio_kv_key_t) : Outcome Bool × World σ :=
  match store with
  | none => (.aborted .store_not_null, w)
  | some st =>
  match key with
  | none => (.aborted .key_not_null, w)
  | some k =>
  if ¬ (k.length ≥ 1 ∧ k.length ≤ 128) then (.aborted .key_length_in_range, w) else
  match k.bytes with
  | none => (.aborted .key_bytes_not_null, w)
  | some bytes =>
    let r := env.kv_exists w.sdk st.kv st.pool bytes k.length
    (.returned (decide (r.1 ≠ 0)),
      { w with
        sdk := r.2
        calls := w.calls ++ [.kv_exists st.kv st.pool bytes k.length] })

/-- The function `fio_kv_delete`. -/
def fio_kv_delete {σ : Type} (env : Env σ) (w : World σ) (store : Option fio_kv_store_t)
    (key : Option fio_kv_key_t) : Outcome Bool × World σ :=
  match store with
  | none => (.aborted .store_not_null, w)
  | some st =>
  match key with
  | none => (.aborted .key_not_null, w)
  | some k =>
  if ¬ (k.length ≥ 1 ∧ k.length ≤ 128) then (.aborted .key_length_in_range, w) else
  match k.bytes with
  | none => (.aborted .key_bytes_not_null, w)
  | some bytes =>
    let r := env.kv_delete w.sdk st.kv st.pool bytes k.length
    (.returned (decide (r.1 = 0)),
      { w with
        sdk := r.2
        calls := w.calls ++ [.kv_delete st.kv st.pool bytes k.length] })

/-- Two calls of `fio_kv_close` in a row on the same structure. -/
def fio_kv_close_twice {σ : Type} (w : World σ) (store : Option fio_kv_store_t) :
    Outcome fio_kv_store_t × World σ :=
  match fio_kv_close w store with
  | (.returned st1, w1) => fio_kv_close w1 (some st1)
  | (.aborted a, w1) => (.aborted a, w1)

/-! ## The key/value engine behind the SDK calls -/

/-- Modelled from the spec: a record of the engine, value bytes plus the expiry
metadata ("Record: value bytes plus metadata"); the vendor SDK that stores it is
not in the repository. -/
structure Record where
  data : List Nat
  expiry : Nat
  deriving DecidableEq, Repr

/-- Modelled from the spec: the index of the engine, "key → (extent reference,
record metadata)", with the pool as the namespace of the key.  The extent is
represented by the bytes it holds.  The vendor SDK that owns the index is not in
the repository. -/
abbrev Index := List ((Int × List Nat) × Record)

/-- Modelled from the spec: `lookup(key) -> Option<IndexEntry>` of the index
component, absent from the repository. -/
def Index.lookup (idx : Index) (k : Int × List Nat) : Option Record :=
  match idx with
  | [] => none
  | e :: rest => if e.1 = k then some e.2 else Index.lookup rest k

/-- Modelled from the spec: `remove(key)` of the index component, absent from the
repository. -/
def Index.remove (idx : Index) (k : Int × List Nat) : Index :=
  idx.filter (fun e => decide (e.1 ≠ k))

/-- Modelled from the spec: `insert(key, entry)` of the index component, absent
from the repository; an existing entry for the key is replaced. -/
def Index.insert (idx : Index) (k : Int × List Nat) (r : Record) : Index :=
  (k, r) :: Index.remove idx k

/-- Modelled from the spec: the state of the store engine, the device paths that
can be opened and the index; the engine (the vendor SDK) is absent from the
repository. -/
structure Engine where
  devices : List String
  index : Index
  deriving DecidableEq, Repr

/-- Modelled from the spec: the key the engine files a record under, the pool and
the first `key_len` bytes behind the key pointer; the engine is absent from the
repository. -/
def Engine.key (pool : Int) (key : List Nat) (key_len : Int) : Int × List Nat :=
  (pool, key.take key_len.toNat)

/-- Modelled from the spec: the store engine of section 4.5 standing in for the
vendor SDK, which is absent from the repository.  `open` fails on a device that
is not accessible; `put` validates the key length (1 to 128 bytes) and updates
the index, replacing an earlier record (refusing to when the replace flag is
off), and reports the bytes written; `get` is an index lookup that fails with
not-found, or with buffer-too-small when the stored length exceeds the buffer
length, and otherwise copies the record into the buffer and reports its length;
`exists` is a pure index lookup; `delete` removes the index entry or reports
not-found. -/
def specEnv : Env Engine where
  sys_open := fun s device => if device ∈ s.devices then 3 else -1
  kv_create := fun s fd _ _ _ => if fd ≥ 0 then (1, s) else (-1, s)
  kv_get := fun s _ pool key key_len buf buf_len info =>
    match s.index.lookup (Engine.key pool key key_len) with
    | none => { ret := -1, data := buf, info := info, sdk := s }
    | some r =>
      if buf_len < r.data.length then { ret := -1, data := buf, info := info, sdk := s }
      else
        { ret := (r.data.length : Int)
          data := r.data ++ buf.drop r.data.length
          info := { value_len := r.data.length, expiry := r.expiry }
          sdk := s }
  kv_put := fun s _ pool key key_len data value_len expiry replace _ =>
    if ¬ (key_len ≥ 1 ∧ key_len ≤ 128) then (-1, s)
    else if replace = false ∧ (s.index.lookup (Engine.key pool key key_len)).isSome then (-1, s)
    else
      ((value_len : Int),
        { s with
          index := s.index.insert (Engine.key pool key key_len)
            { data := data.take value_len, expiry := expiry } })
  kv_exists := fun s _ pool key key_len =>
    if (s.index.lookup (Engine.key pool key key_len)).isSome then (1, s) else (0, s)
  kv_delete := fun s _ pool key key_len =>
    if (s.index.lookup (Engine.key pool key key_len)).isSome then
      (0, { s with index := s.index.remove (Engine.key pool key key_len) })
    else (-1, s)

/-! ## Concrete inputs used to run the model -/

/-- An environment in which `open` returns `fd` and every SDK call reports
`status` and changes nothing. -/
def constEnv (fd status : Int) : Env Unit where
  sys_open := fun _ _ => fd
  kv_create := fun s _ _ _ _ => (status, s)
  kv_get := fun s _ _ _ _ buf _ info => { ret := status, data := buf, info := info, sdk := s }
  kv_put := fun s _ _ _ _ _ _ _ _ _ => (status, s)
  kv_exists := fun s _ _ _ _ => (status, s)
  kv_delete := fun s _ _ _ _ => (status, s)

/-- A process with the three standard descriptors open and no SDK call made. -/
def stdWorld : World Unit := { fds := {0, 1, 2}, sdk := (), calls := [] }

/-- A process in which the device is open on descriptor 3 as well. -/
def openWorld : World Unit := { fds := {0, 1, 2, 3}, sdk := (), calls := [] }

/-- An environment whose state is the number of SDK calls it has received:
`open` returns `fd`, every SDK call reports `status` and adds one to the count. -/
def countEnv (fd status : Int) : Env Nat where
  sys_open := fun _ _ => fd
  kv_create := fun n _ _ _ _ => (status, n + 1)
  kv_get := fun n _ _ _ _ buf _ info =>
    { ret := status, data := buf, info := info, sdk := n + 1 }
  kv_put := fun n _ _ _ _ _ _ _ _ _ => (status, n + 1)
  kv_exists := fun n _ _ _ _ => (status, n + 1)
  kv_delete := fun n _ _ _ _ => (status, n + 1)

/-- A process with descriptors 0 to 3 open whose SDK has received no call. -/
def countWorld : World Nat := { fds := {0, 1, 2, 3}, sdk := 0, calls := [] }

/-- An open store on descriptor 3, pool 0. -/
def store3 : fio_kv_store_t := { fd := 3, kv := 1, pool := 0 }

/-- A three-byte key. -/
def key3 : fio_kv_key_t := { length := 3, bytes := some [107, 101, 121] }

/-- A key of length 0. -/
def key0 : fio_kv_key_t := { length := 0, bytes := some [] }

/-- A four-byte value. -/
def value4 : fio_kv_value_t :=
  { data := some [1, 2, 3, 4], info := some { value_len := 4, expiry := 0 } }

/-- A zeroed read buffer of eight bytes. -/
def buffer8 : fio_kv_value_t :=
  { data := some [0, 0, 0, 0, 0, 0, 0, 0], info := some { value_len := 8, expiry := 0 } }

/-- An engine with one accessible device and an empty index. -/
def emptyEngine : World Engine :=
  { fds := {0, 1, 2, 3}, sdk := { devices := ["/dev/fct0"], index := [] }, calls := [] }

/-! ## Theorems -/

/-- C1: for each of `fio_kv_get`, `fio_kv_put`, `fio_kv_exists` and
`fio_kv_delete`, a key whose length is outside 1..128 makes the call abort on an
assertion with the world (SDK state, call record, descriptors) untouched, and
with a non-null store the assertion that fails is the one on the key length;
a key of length 1..128 with non-null store, bytes (and value, data, info for
get and put) passes validation and the SDK call is made exactly once: the value
returned is the one that single call returned, the SDK state is the one that
single call left, starting from the state before, and the record of SDK calls
grows by that call alone. -/
theorem key_length_validation {σ : Type} (env : Env σ) (w : World σ)
    (store : Option fio_kv_store_t) (k : fio_kv_key_t) (value : Option fio_kv_value_t) :
    (¬ (1 ≤ k.length ∧ k.length ≤ 128) →
      ((∃ a, fio_kv_get env w store (some k) value = (.aborted a, w)) ∧
        (∃ a, fio_kv_put env w store (some k) value = (.aborted a, w)) ∧
        (∃ a, fio_kv_exists env w store (some k) = (.aborted a, w)) ∧
        (∃ a, fio_kv_delete env w store (some k) = (.aborted a, w))) ∧
      (store ≠ none →
        fio_kv_get env w store (some k) value = (.aborted .key_length_in_range, w) ∧
        fio_kv_put env w store (some k) value = (.aborted .key_length_in_range, w) ∧
        fio_kv_exists env w store (some k) = (.aborted .key_length_in_range, w) ∧
        fio_kv_delete env w store (some k) = (.aborted .key_length_in_range, w))) ∧
    ((1 ≤ k.length ∧ k.length ≤ 128) →
      ∀ st bytes, store = some st → k.bytes = some bytes →
        fio_kv_exists env w store (some k) =
          (.returned (decide ((env.kv_exists w.sdk st.kv st.pool bytes k.length).1 ≠ 0)),
            { fds := w.fds
              sdk := (env.kv_exists w.sdk st.kv st.pool bytes k.length).2
              calls := w.calls ++ [.kv_exists st.kv st.pool bytes k.length] }) ∧
        fio_kv_delete env w store (some k) =
          (.returned (decide ((env.kv_delete w.sdk st.kv st.pool bytes k.length).1 = 0)),
            { fds := w.fds
              sdk := (env.kv_delete w.sdk st.kv st.pool bytes k.length).2
              calls := w.calls ++ [.kv_delete st.kv st.pool bytes k.length] }) ∧
        ∀ v data info, value = some v → v.data = some data → v.info = some info →
          fio_kv_get env w store (some k) value =
            (.returned
              ((env.kv_get w.sdk st.kv st.pool bytes k.length data info.value_len info).ret,
                { data := some
                    (env.kv_get w.sdk st.kv st.pool bytes k.length data info.value_len info).data
                  info := some
                    (env.kv_get w.sdk st.kv st.pool bytes k.length data info.value_len
                      info).info }),
              { fds := w.fds
                sdk := (env.kv_get w.sdk st.kv st.pool bytes k.length data info.value_len
                  info).sdk
                calls := w.calls ++
                  [.kv_get st.kv st.pool bytes k.length data info.value_len info] }) ∧
          fio_kv_put env w store (some k) value =
            (.returned
              (env.kv_put w.sdk st.kv st.pool bytes k.length data info.value_len
                info.expiry true 0).1,
              { fds := w.fds
                sdk := (env.kv_put w.sdk st.kv st.pool bytes k.length data info.value_len
                  info.expiry true 0).2
                calls := w.calls ++
                  [.kv_put st.kv st.pool bytes k.length data info.value_len info.expiry
                    true 0] })) := by
  refine ⟨fun hbad => ⟨?_, ?_⟩, ?_⟩
  · cases store with
    | none => simp [fio_kv_get, fio_kv_put, fio_kv_exists, fio_kv_delete]
    | some st => simp [fio_kv_get, fio_kv_put, fio_kv_exists, fio_kv_delete, hbad]
  · intro hs
    cases store with
    | none => exact absurd rfl hs
    | some st => simp [fio_kv_get, fio_kv_put, fio_kv_exists, fio_kv_delete, hbad]
  · intro hok st bytes hst hb
    subst hst
    refine ⟨?_, ?_, ?_⟩
    · simp [fio_kv_exists, hok, hb]
    · simp [fio_kv_delete, hok, hb]
    · intro v data info hv hd hi
      subst hv
      simp [fio_kv_get, fio_kv_put, hok, hb, hd, hi]

/-- Witness for C1, in an environment whose state counts the SDK calls it has
received: a put with the 0-length key aborts on the key-length assertion and
leaves the world as it was, with no call received; a put with a 3-byte key
returns the status of `kv_put`, and the SDK has received one call. -/
theorem key_length_validation_witness :
    (¬ (1 ≤ key0.length ∧ key0.length ≤ 128) ∧
      fio_kv_put (countEnv 3 7) countWorld (some store3) (some key0) (some value4) =
        (.aborted .key_length_in_range, countWorld)) ∧
    ((1 ≤ key3.length ∧ key3.length ≤ 128) ∧
      fio_kv_put (countEnv 3 7) countWorld (some store3) (some key3) (some value4) =
        (.returned 7,
          { fds := {0, 1, 2, 3}
            sdk := 1
            calls := [.kv_put 1 0 [107, 101, 121] 3 [1, 2, 3, 4] 4 0 true 0] })) :=
  ⟨⟨by decide,
      (((key_length_validation (countEnv 3 7) countWorld (some store3) key0 (some value4)).1
        (by decide)).2 (by simp)).2.1⟩,
    ⟨by decide,
      ((((key_length_validation (countEnv 3 7) countWorld (some store3) key3 (some value4)).2
        (by decide)) store3 [107, 101, 121] rfl rfl).2.2
          value4 [1, 2, 3, 4] { value_len := 4, expiry := 0 } rfl rfl rfl).2⟩⟩

/-- C2: for a non-null device path and `pool_id ≥ 0`, `fio_kv_open` returns NULL
exactly when `open` returns a descriptor below 0 or `kv_create` (called with that
descriptor, the API version, the maximal number of pools and expiry off) returns
a value ≤ 0; otherwise it returns a store holding the descriptor, the id from
`kv_create` and `pool_id`. -/
theorem fio_kv_open_result {σ : Type} (env : Env σ) (w : World σ) (dev : String)
    (pool_id : Int) (hp : 0 ≤ pool_id) :
    ((fio_kv_open env w (some dev) pool_id).1 = .returned none ↔
      (env.sys_open w.sdk dev < 0 ∨
        (env.kv_create w.sdk (env.sys_open w.sdk dev)
          FIO_KV_API_VERSION FIO_KV_MAX_POOLS false).1 ≤ 0)) ∧
    (¬ (env.sys_open w.sdk dev < 0 ∨
        (env.kv_create w.sdk (env.sys_open w.sdk dev)
          FIO_KV_API_VERSION FIO_KV_MAX_POOLS false).1 ≤ 0) →
      (fio_kv_open env w (some dev) pool_id).1 =
        .returned (some
          { fd := env.sys_open w.sdk dev
            kv := (env.kv_create w.sdk (env.sys_open w.sdk dev)
              FIO_KV_API_VERSION FIO_KV_MAX_POOLS false).1
            pool := pool_id })) := by
  have hsdk : (w.sys_open env dev).2.sdk = w.sdk := by
    simp only [World.sys_open]
    split <;> rfl
  have hfd : (w.sys_open env dev).1 = env.sys_open w.sdk dev := by
    simp only [World.sys_open]
    split <;> rfl
  by_cases h1 : env.sys_open w.sdk dev < 0
  · simp [fio_kv_open, hp, hfd, h1]
  · by_cases h2 : (env.kv_create w.sdk (env.sys_open w.sdk dev)
        FIO_KV_API_VERSION FIO_KV_MAX_POOLS false).1 ≤ 0
    · simp [fio_kv_open, hp, hfd, hsdk, h1, h2]
    · simp [fio_kv_open, hp, hfd, hsdk, h1, h2]

/-- Witness for C2: with `open` returning 3 and `kv_create` returning 1, the
store (3, 1, 0) is returned. -/
theorem fio_kv_open_result_witness :
    (0 : Int) ≤ 0 ∧
      (fio_kv_open (constEnv 3 1) stdWorld (some "/dev/fct0") 0).1 =
        .returned (some { fd := 3, kv := 1, pool := 0 }) :=
  ⟨le_refl 0,
    (fio_kv_open_result (constEnv 3 1) stdWorld "/dev/fct0" 0 (le_refl 0)).2 (by decide)⟩

/-- C3: a failing exit path of `fio_kv_open` that keeps the device open.  `open`
returns descriptor 3 and `kv_create` returns 0: the call returns NULL, and
descriptor 3, which was not open before the call, is open after it. -/
theorem fio_kv_open_failure_keeps_descriptor :
    (fio_kv_open (constEnv 3 0) stdWorld (some "/dev/fct0") 0).1 = .returned none ∧
    (3 : Int) ∉ stdWorld.fds ∧
    (3 : Int) ∈ (fio_kv_open (constEnv 3 0) stdWorld (some "/dev/fct0") 0).2.fds ∧
    (fio_kv_open (constEnv 3 0) stdWorld (some "/dev/fct0") 0).2.fds ≠ stdWorld.fds := by
  decide

/-- C4: on the open store (3, 1, 0) of a process with descriptors 0, 1, 2, 3
open, the first `fio_kv_close` closes descriptor 3 and leaves (0, 0, 0) in the
structure; the second one then closes descriptor 0, so two calls leave 1, 2 open
where one call leaves 0, 1, 2 open. -/
theorem fio_kv_close_twice_closes_descriptor_zero :
    (fio_kv_close openWorld (some store3)).1 = .returned { fd := 0, kv := 0, pool := 0 } ∧
    (fio_kv_close openWorld (some store3)).2.fds = {0, 1, 2} ∧
    (fio_kv_close_twice openWorld (some store3)).2.fds = {1, 2} ∧
    (fio_kv_close_twice openWorld (some store3)).2.fds ≠
      (fio_kv_close openWorld (some store3)).2.fds := by
  decide

/-- C5: at the 32-bit length 4294967295 the size `fio_kv_alloc` asks
`posix_memalign` for wraps around to 0, which is less than the length. -/
theorem fio_kv_alloc_wraps :
    (4294967295 : Nat) < 2 ^ 32 ∧
    fio_kv_alloc 4294967295 = (512, 0) ∧
    (fio_kv_alloc 4294967295).2 < 4294967295 := by
  decide

/-- C6: with a valid store and key, when `kv_exists` reports the error status
-1, `fio_kv_exists` returns true. -/
theorem fio_kv_exists_true_on_error :
    ((constEnv 3 (-1)).kv_exists openWorld.sdk store3.kv store3.pool [107, 101, 121] 3).1 = -1 ∧
    (fio_kv_exists (constEnv 3 (-1)) openWorld (some store3) (some key3)).1 = .returned true := by
  decide

/-- C7: for every store and every valid key, `fio_kv_delete` makes the one call
`kv_delete(store->kv, store->pool, key->bytes, key->length)` and returns true if
and only if that call returns 0. -/
theorem fio_kv_delete_true_iff {σ : Type} (env : Env σ) (w : World σ) (st : fio_kv_store_t)
    (k : fio_kv_key_t) (bytes : List Nat) (hk : 1 ≤ k.length ∧ k.length ≤ 128)
    (hb : k.bytes = some bytes) :
    (∃ b, (fio_kv_delete env w (some st) (some k)).1 = .returned b ∧
      (b = true ↔ (env.kv_delete w.sdk st.kv st.pool bytes k.length).1 = 0) ∧
      (b = false ↔ (env.kv_delete w.sdk st.kv st.pool bytes k.length).1 ≠ 0)) ∧
    (fio_kv_delete env w (some st) (some k)).2.calls =
      w.calls ++ [.kv_delete st.kv st.pool bytes k.length] ∧
    (fio_kv_delete env w (some st) (some k)).2.sdk =
      (env.kv_delete w.sdk st.kv st.pool bytes k.length).2 := by
  simp [fio_kv_delete, hk, hb]

/-- Witness for C7: `kv_delete` returning 0 gives true. -/
theorem fio_kv_delete_true_iff_witness :
    ((1 ≤ key3.length ∧ key3.length ≤ 128) ∧ key3.bytes = some [107, 101, 121]) ∧
      (fio_kv_delete (constEnv 3 0) openWorld (some store3) (some key3)).2.calls =
        openWorld.calls ++ [.kv_delete 1 0 [107, 101, 121] 3] :=
  ⟨⟨by decide, rfl⟩,
    (fio_kv_delete_true_iff (constEnv 3 0) openWorld store3 key3 [107, 101, 121]
      (by decide) rfl).2.1⟩

/-- C8: when `kv_get` reports failure with the negative result -2, `fio_kv_get`
returns -2 and not -1, the value its documentation gives for a failed read. -/
theorem fio_kv_get_returns_other_negative :
    ((constEnv 3 (-2)).kv_get openWorld.sdk store3.kv store3.pool [107, 101, 121] 3
      [0, 0, 0, 0, 0, 0, 0, 0] 8 { value_len := 8, expiry := 0 }).ret = -2 ∧
    (fio_kv_get (constEnv 3 (-2)) openWorld (some store3) (some key3) (some buffer8)).1 =
      .returned (-2, buffer8) ∧
    (fio_kv_get (constEnv 3 (-2)) openWorld (some store3) (some key3) (some buffer8)).1 ≠
      .returned (-1, buffer8) := by
  decide

/-- An entry just inserted in the index is the one a lookup finds. -/
theorem Index.lookup_insert (idx : Index) (k : Int × List Nat) (r : Record) :
    Index.lookup (Index.insert idx k r) k = some r := by
  simp [Index.insert, Index.lookup]

/-- C9: on the engine modelled from the spec, for every store, every valid key
(1..128 bytes) and every value of `value_len` bytes, `fio_kv_put` succeeds
(it returns `value_len`, whatever the index held for the key before) and a
following `fio_kv_get` with a buffer of at least `value_len` bytes returns
`value_len`, leaves the value's bytes at the start of the buffer and the value's
length and expiry in the info. -/
theorem put_then_get_roundtrip (w : World Engine) (st : fio_kv_store_t) (k : fio_kv_key_t)
    (kb vd bd : List Nat) (vi bi : kv_key_info_t)
    (hk : 1 ≤ k.length ∧ k.length ≤ 128) (hkb : k.bytes = some kb)
    (hvd : vi.value_len ≤ vd.length)
    (hcap : vi.value_len ≤ bi.value_len) (hbd : bi.value_len ≤ bd.length) :
    (fio_kv_put specEnv w (some st) (some k) (some { data := some vd, info := some vi })).1 =
      .returned (vi.value_len : Int) ∧
    (fio_kv_get specEnv
      (fio_kv_put specEnv w (some st) (some k) (some { data := some vd, info := some vi })).2
      (some st) (some k) (some { data := some bd, info := some bi })).1 =
      .returned ((vi.value_len : Int),
        { data := some (vd.take vi.value_len ++ bd.drop vi.value_len)
          info := some { value_len := vi.value_len, expiry := vi.expiry } }) ∧
    (vd.take vi.value_len ++ bd.drop vi.value_len).take vi.value_len = vd.take vi.value_len ∧
    (vd.take vi.value_len ++ bd.drop vi.value_len).length = bd.length := by
  have hlen : (vd.take vi.value_len).length = vi.value_len := by
    simp [List.length_take, hvd]
  have h128 : ¬ (128 < k.length) := not_lt.mpr hk.2
  have hfit : ¬ (bi.value_len < vi.value_len) := not_lt.mpr hcap
  refine ⟨?_, ?_, ?_, ?_⟩
  · simp [fio_kv_put, specEnv, hk, hkb, h128]
  · simp [fio_kv_put, fio_kv_get, specEnv, hk, hkb, h128, Index.lookup_insert, hvd, hfit]
  · rw [List.take_append_of_le_length (le_of_eq hlen.symm), List.take_take]
    simp
  · rw [List.length_append, hlen, List.length_drop]
    omega

/-- Witness for C9: the value 1, 2, 3, 4 put under a 3-byte key in an empty
engine and read back into a zeroed buffer of 8 bytes. -/
theorem put_then_get_roundtrip_witness :
    ((1 ≤ key3.length ∧ key3.length ≤ 128) ∧ key3.bytes = some [107, 101, 121] ∧
      (4 : Nat) ≤ [1, 2, 3, 4].length ∧ (4 : Nat) ≤ 8 ∧ (8 : Nat) ≤ [0, 0, 0, 0, 0, 0, 0, 0].length) ∧
    (fio_kv_get specEnv
      (fio_kv_put specEnv emptyEngine (some store3) (some key3) (some value4)).2
      (some store3) (some key3) (some buffer8)).1 =
      .returned (4,
        { data := some [1, 2, 3, 4, 0, 0, 0, 0], info := some { value_len := 4, expiry := 0 } }) :=
  ⟨⟨by decide, rfl, by decide, by decide, by decide⟩,
    (put_then_get_roundtrip emptyEngine store3 key3 [107, 101, 121] [1, 2, 3, 4]
      [0, 0, 0, 0, 0, 0, 0, 0] { value_len := 4, expiry := 0 } { value_len := 8, expiry := 0 }
      (by decide) rfl (by decide) (by decide) (by decide)).2.1⟩

/-- C10: for every length below 2^32 - 512 the size `fio_kv_alloc` asks
`posix_memalign` for is `512 * (length / 512 + 1)`: a multiple of 512, strictly
greater than the length and at most the length plus 512; a length that is a
multiple of 512 gets the length plus 512, not the length itself. -/
theorem fio_kv_alloc_size_eq (length : Nat) (h : length < 2 ^ 32 - 512) :
    (fio_kv_alloc length).1 = 512 ∧
    (fio_kv_alloc length).2 = 512 * (length / 512 + 1) ∧
    512 ∣ (fio_kv_alloc length).2 ∧
    length < (fio_kv_alloc length).2 ∧
    (fio_kv_alloc length).2 ≤ length + 512 ∧
    (length % 512 = 0 → (fio_kv_alloc length).2 = length + 512) := by
  have hsize : (fio_kv_alloc length).2 = 512 * (length / 512 + 1) := by
    simp only [fio_kv_alloc, fio_kv_alloc_size, u32_sub, u32_add, FIO_SECTOR_ALIGNMENT]
    norm_num at h ⊢
    omega
  refine ⟨rfl, hsize, ?_, ?_, ?_, ?_⟩
  · rw [hsize]
    exact Dvd.intro _ rfl
  · rw [hsize]
    omega
  · rw [hsize]
    omega
  · intro h0
    rw [hsize]
    omega

/-- Witness for C10: a length of 1024 bytes asks for 1536 bytes. -/
theorem fio_kv_alloc_size_eq_witness :
    (1024 : Nat) < 2 ^ 32 - 512 ∧ (fio_kv_alloc 1024).2 = 512 * (1024 / 512 + 1) :=
  ⟨by decide, (fio_kv_alloc_size_eq 1024 (by decide)).2.1⟩

end FioKv
